import Mathlib

/-!
Shallow embedding of the smart_feedback backend (`src/server.js`):
an Express server over SQLite with user registration/login, feedback
ingestion with VADER sentiment classification, listing, deletion and
aggregation endpoints.  The SQLite tables become Lean lists, HTTP
handlers become state-passing functions returning an HTTP status
together with the updated database, and the external `vader-sentiment`
and `bcrypt` npm libraries are modelled from the specification (they
are dependencies, not repository source).
-/

namespace SmartFeedback

/-- A row of the `users` table: `users(id, username UNIQUE, password)`,
where `password` holds the bcrypt hash (server.js lines 25-29). -/
structure UserRow where
  id : Nat
  username : String
  password : String
deriving DecidableEq

/-- A row of the `feedback` table (server.js lines 30-41).  `user_id` is
nullable; `created_at` is modelled as a natural-number timestamp
(seconds); `sentiment_score` is a rational in place of the SQLite REAL. -/
structure FeedbackRow where
  id : Nat
  user_id : Option Nat
  username : String
  role : String
  feedback_type : String
  feedback_text : String
  sentiment_label : String
  sentiment_score : ℚ
  created_at : Nat
deriving DecidableEq

/-- The whole SQLite database: both tables plus the AUTOINCREMENT
counters for their INTEGER PRIMARY KEY columns. -/
structure DB where
  users : List UserRow
  nextUserId : Nat
  feedback : List FeedbackRow
  nextFeedbackId : Nat
deriving DecidableEq

/-- A fresh database, as produced by the CREATE TABLE statements:
both tables empty, AUTOINCREMENT counters at 1. -/
def emptyDB : DB := ⟨[], 1, [], 1⟩

/-- JavaScript truthiness of an optional string request field:
`undefined`/`null` and the empty string are falsy. -/
def jsTruthyStr : Option String → Bool
  | none => false
  | some s => s ≠ ""

/-- JavaScript truthiness of an optional numeric request field:
`undefined`/`null` and `0` are falsy. -/
def jsTruthyNat : Option Nat → Bool
  | none => false
  | some n => n ≠ 0

/-- `x || ''` on an optional string field (server.js line 92). -/
def jsOrEmpty (x : Option String) : String := x.getD ""

/-- `user_id || null` on the optional numeric field (server.js line 92):
a falsy value (absent or 0) is stored as NULL. -/
def jsOrNull (x : Option Nat) : Option Nat :=
  if jsTruthyNat x then x else none

/-- The threshold classification of server.js lines 85-87:
`let sentiment_label = 'neutral'; if (compound > 0.3) 'positive';
else if (compound < -0.3) 'negative'`. -/
def classifyLabel (s : ℚ) : String :=
  if s > 3/10 then "positive"
  else if s < -(3/10) then "negative"
  else "neutral"

/-- The SQLite column constraint `CHECK(role IN ('guest','user','admin'))`
(server.js line 34) on a non-NULL stored role value. -/
def roleCheckOk (r : String) : Bool :=
  r == "guest" || r == "user" || r == "admin"

/-- Modelled from the spec: per-word polarity lookup of the external
`vader-sentiment` library's fixed lexicon (the library is an npm
dependency, not repository source; "word-level polarity lookup" per
spec §4.2, with the exact lexicon explicitly not a contract boundary). -/
def wordPolarity (w : String) : Int :=
  if w = "good" ∨ w = "great" ∨ w = "love" ∨ w = "excellent" then 2
  else if w = "nice" ∨ w = "helpful" then 1
  else if w = "bad" ∨ w = "broken" then -1
  else if w = "terrible" ∨ w = "awful" ∨ w = "hate" then -2
  else 0

/-- Splits a character list at spaces, accumulating the current word. -/
def wordsAux : List Char → List Char → List (List Char)
  | [], acc => [acc.reverse]
  | c :: cs, acc =>
    if c = ' ' then acc.reverse :: wordsAux cs []
    else wordsAux cs (c :: acc)

/-- The space-separated words of a string, empty fragments dropped. -/
def splitWords (s : String) : List String :=
  ((wordsAux s.toList []).map (fun cs => String.mk cs)).filter
    (fun w => w ≠ "")

/-- Modelled from the spec: the external library call
`vader.SentimentIntensityAnalyzer.polarity_scores(text).compound`
(server.js line 84) — a deterministic lexicon-based compound polarity
score normalized into [-1, 1], with no error conditions and score 0 on
the empty string (spec §4.2). -/
def vaderCompound (text : String) : ℚ :=
  let s : Int := ((splitWords text).map wordPolarity).sum
  (s : ℚ) / ((s.natAbs : ℚ) + 3)

/-- The classification step of the ingestion handler (server.js lines
84-88), packaged as the spec's `Classify(text) -> (label, score)`. -/
def Classify (text : String) : String × ℚ :=
  let s := vaderCompound text
  (classifyLabel s, s)

/-- The request body of POST /api/feedback (server.js line 79):
each field may be absent. -/
structure FeedbackReq where
  user_id : Option Nat
  username : Option String
  role : Option String
  feedback_type : Option String
  feedback_text : Option String
deriving DecidableEq

/-- The validation condition of server.js line 80:
`!feedback_text || !role || (!username && !user_id)`. -/
def missingFields (req : FeedbackReq) : Bool :=
  !(jsTruthyStr req.feedback_text) || !(jsTruthyStr req.role) ||
    (!(jsTruthyStr req.username) && !(jsTruthyNat req.user_id))

/-- The VALUES tuple of the INSERT of server.js lines 90-92, after the
sentiment-analysis step of lines 84-88: `[user_id || null, username ||
'', role, feedback_type || '', feedback_text, sentiment_label,
sentiment_score]`, with the assigned AUTOINCREMENT id and the
`created_at` default `now`. -/
def insertedRow (compound : String → ℚ) (db : DB) (now : Nat)
    (req : FeedbackReq) : FeedbackRow :=
  { id := db.nextFeedbackId
    user_id := jsOrNull req.user_id
    username := jsOrEmpty req.username
    role := jsOrEmpty req.role
    feedback_type := jsOrEmpty req.feedback_type
    feedback_text := jsOrEmpty req.feedback_text
    sentiment_label := classifyLabel (compound (jsOrEmpty req.feedback_text))
    sentiment_score := compound (jsOrEmpty req.feedback_text)
    created_at := now }

/-- POST /api/feedback (server.js lines 78-101), parameterized by the
compound-score function `compound` (the VADER black box) and the clock
value `now` used for the `created_at DEFAULT CURRENT_TIMESTAMP` column.
Returns the HTTP status and the resulting database.  Validation (line
80) rejects with 400 when `feedback_text` or `role` is falsy or both
`username` and `user_id` are falsy; otherwise the row is inserted, and
a role failing the CHECK constraint makes `db.run` report an error,
answered with 500 (lines 94-96) and no stored row. -/
def postFeedback (compound : String → ℚ) (db : DB) (now : Nat)
    (req : FeedbackReq) : Nat × DB :=
  if missingFields req then
    (400, db)
  else if roleCheckOk (jsOrEmpty req.role) then
    (200, { db with feedback := db.feedback ++ [insertedRow compound db now req],
                    nextFeedbackId := db.nextFeedbackId + 1 })
  else
    (500, db)

/-- GET /api/all-feedback (server.js lines 104-112):
`SELECT * FROM feedback ORDER BY created_at DESC`. -/
def listAll (db : DB) : List FeedbackRow :=
  List.insertionSort (fun a b => b.created_at ≤ a.created_at) db.feedback

/-- GET /api/feedback/user/:userId (server.js lines 115-124):
`SELECT * FROM feedback WHERE user_id = ? ORDER BY created_at DESC`. -/
def listByUser (db : DB) (uid : Nat) : List FeedbackRow :=
  List.insertionSort (fun a b => b.created_at ≤ a.created_at)
    (db.feedback.filter (fun r => r.user_id == some uid))

/-- The `sentiment_label` column of the feedback table, in row order. -/
def storedLabels (db : DB) : List String :=
  db.feedback.map (fun r => r.sentiment_label)

/-- GET /api/sentiment-summary (server.js lines 127-135):
`SELECT sentiment_label, COUNT(*) as count FROM feedback GROUP BY
sentiment_label` — one (label, count) pair per distinct stored label. -/
def sentimentSummary (db : DB) : List (String × Nat) :=
  (storedLabels db).dedup.map (fun l => (l, (storedLabels db).count l))

/-- `DATE(created_at)`: the day-granularity calendar date of a
timestamp, modelled as the day index of the seconds counter. -/
def dateOf (t : Nat) : Nat := t / 86400

/-- The `sentiment_score` values of the feedback rows created on
calendar date `d` — the group that `GROUP BY DATE(created_at)`
aggregates for that date. -/
def scoresOf (db : DB) (d : Nat) : List ℚ :=
  (db.feedback.filter (fun r => dateOf r.created_at == d)).map
    (fun r => r.sentiment_score)

/-- GET /api/avg-sentiment-over-time (server.js lines 149-164):
`SELECT DATE(created_at) AS date, AVG(sentiment_score) AS avg_score
FROM feedback GROUP BY DATE(created_at) ORDER BY DATE(created_at)` —
one (date, mean score) pair per distinct date, ascending by date. -/
def avgSentimentOverTime (db : DB) : List (Nat × ℚ) :=
  (List.insertionSort (fun a b => a ≤ b)
      ((db.feedback.map (fun r => dateOf r.created_at)).dedup)).map
    (fun d => (d, (scoresOf db d).sum / ((scoresOf db d).length : ℚ)))

/-- The numeric value of a decimal digit character. -/
def digitVal (c : Char) : Option Nat :=
  if c = '0' then some 0
  else if c = '1' then some 1
  else if c = '2' then some 2
  else if c = '3' then some 3
  else if c = '4' then some 4
  else if c = '5' then some 5
  else if c = '6' then some 6
  else if c = '7' then some 7
  else if c = '8' then some 8
  else if c = '9' then some 9
  else none

/-- Reads a decimal numeral from a character list, `none` on any
non-digit. -/
def parseNatAux : List Char → Nat → Option Nat
  | [], acc => some acc
  | c :: cs, acc =>
    match digitVal c with
    | none => none
    | some d => parseNatAux cs (acc * 10 + d)

/-- The id-well-formedness test `!feedbackId || isNaN(feedbackId)` of
server.js line 169, modelled as decimal parsing of the raw path
parameter: the empty string and any string holding a non-digit are
rejected (`none`). -/
def parseNat (s : String) : Option Nat :=
  if s.toList = [] then none else parseNatAux s.toList 0

/-- DELETE /api/delete-feedback/:id (server.js lines 167-183).  The raw
path parameter is validated first and rejected with 400 before touching
the store; then `DELETE FROM feedback WHERE id = ?` runs and
`this.changes` decides between 200 (a row was removed) and 404. -/
def deleteById (db : DB) (idStr : String) : Nat × DB :=
  match parseNat idStr with
  | none => (400, db)
  | some i =>
    let remaining := db.feedback.filter (fun r => r.id ≠ i)
    if remaining.length < db.feedback.length then
      (200, { db with feedback := remaining })
    else
      (404, db)

/-- Modelled from the spec: the external `bcrypt.hash` library call
(server.js line 50) — a deterministic one-way encoding of the password
(bcrypt itself is an npm dependency, not repository source; spec §4.1
requires only a salted one-way hash verified by its own comparator). -/
def bhash (p : String) : String := "$2b$10$" ++ p

/-- Modelled from the spec: the external `bcrypt.compare` library call
(server.js line 70) — the hash function's own comparator, true exactly
when the candidate password re-hashes to the stored digest. -/
def bcompare (p h : String) : Bool := h == bhash p

/-- POST /api/register (server.js lines 45-62).  Returns (status,
returned userId, resulting database): 400 when a field is falsy or the
UNIQUE constraint on `username` rejects the INSERT; on success the row
is stored with the hashed password and the id is re-read by
`SELECT id FROM users WHERE username = ?`. -/
def register (db : DB) (username password : String) : Nat × Option Nat × DB :=
  if username = "" ∨ password = "" then (400, none, db)
  else if db.users.any (fun u => u.username == username) then (400, none, db)
  else
    let row : UserRow := ⟨db.nextUserId, username, bhash password⟩
    let db' : DB := { db with users := db.users ++ [row],
                              nextUserId := db.nextUserId + 1 }
    match db'.users.find? (fun u => u.username == username) with
    | some u => (200, some u.id, db')
    | none => (500, none, db')

/-- POST /api/login (server.js lines 65-75).  Returns (status, returned
userId, response message): 400 with "Username and password required"
when a field is falsy; otherwise `SELECT id, password FROM users WHERE
username = ?` and `bcrypt.compare`, with the identical body
"Invalid username or password" whether the row is missing or the
comparison fails. -/
def login (db : DB) (username password : String) : Nat × Option Nat × String :=
  if username = "" ∨ password = "" then
    (400, none, "Username and password required")
  else
    match db.users.find? (fun u => u.username == username) with
    | none => (400, none, "Invalid username or password")
    | some row =>
      if bcompare password row.password then (200, some row.id, "")
      else (400, none, "Invalid username or password")

/-! Concrete fixtures used to instantiate the theorems below. -/

/-- A well-formed ingestion request: user 1 ("alice"), role `user`. -/
def reqAlice : FeedbackReq :=
  ⟨some 1, some "alice", some "user", some "bug", some "great"⟩

/-- A request missing both `username` and `user_id`. -/
def reqNoUser : FeedbackReq :=
  ⟨none, none, some "user", none, some "great"⟩

/-- A request whose role is a non-empty string outside the
CHECK-constraint enumeration. -/
def reqBadRole : FeedbackReq :=
  ⟨none, some "bob", some "superadmin", none, some "good"⟩

/-- A one-row feedback table. -/
def rowEx : FeedbackRow :=
  ⟨1, some 1, "alice", "user", "bug", "great", "positive", 2/5, 5⟩

/-- A database holding exactly `rowEx`. -/
def dbOne : DB := ⟨[], 1, [rowEx], 2⟩

/-- The database produced by registering alice on an empty database. -/
def regDB : DB := ⟨[⟨1, "alice", bhash "pw123"⟩], 2, [], 1⟩

/-! Helper lemmas. -/

/-- Removing by a predicate that some list member falsifies strictly
shrinks the list. -/
lemma length_filter_lt_of_mem_not {α : Type} (p : α → Bool) (l : List α)
    (x : α) (hx : x ∈ l) (hpx : p x = false) :
    (l.filter p).length < l.length := by
  induction l with
  | nil => cases hx
  | cons a l ih =>
    rcases List.mem_cons.mp hx with rfl | hx'
    · rw [List.filter_cons_of_neg (by simp [hpx])]
      exact Nat.lt_succ_of_le (List.length_filter_le p l)
    · by_cases hpa : p a = true
      · rw [List.filter_cons_of_pos hpa]
        simpa using Nat.succ_lt_succ (ih hx')
      · rw [List.filter_cons_of_neg (by simpa using hpa)]
        exact Nat.lt_succ_of_le (Nat.le_of_lt (ih hx'))

lemma classifyLabel_pos_iff (s : ℚ) :
    classifyLabel s = "positive" ↔ 3/10 < s := by
  unfold classifyLabel
  split
  next h => simpa using h
  next h =>
    split
    next => simpa using h
    next => simpa using h

lemma classifyLabel_neg_iff (s : ℚ) :
    classifyLabel s = "negative" ↔ s < -(3/10) := by
  unfold classifyLabel
  split
  next h =>
    constructor
    · intro he; exact absurd he (by decide)
    · intro hc; exact absurd (by linarith : s < s) (lt_irrefl s)
  next h =>
    split
    next h2 => simpa using h2
    next h2 => simpa using h2

lemma classifyLabel_neutral_iff (s : ℚ) :
    classifyLabel s = "neutral" ↔ -(3/10) ≤ s ∧ s ≤ 3/10 := by
  unfold classifyLabel
  split
  next h =>
    constructor
    · intro he; exact absurd he (by decide)
    · intro hc; exact absurd h (by push_neg; exact hc.2)
  next h =>
    split
    next h2 =>
      constructor
      · intro he; exact absurd he (by decide)
      · intro hc; exact absurd h2 (by push_neg; exact hc.1)
    next h2 =>
      push_neg at h h2
      simpa using ⟨h2, h⟩

lemma postFeedback_400 (compound : String → ℚ) (db : DB) (now : Nat)
    (req : FeedbackReq) (h : missingFields req = true) :
    postFeedback compound db now req = (400, db) := by
  simp [postFeedback, h]

lemma postFeedback_500 (compound : String → ℚ) (db : DB) (now : Nat)
    (req : FeedbackReq) (h1 : missingFields req = false)
    (h2 : roleCheckOk (jsOrEmpty req.role) = false) :
    postFeedback compound db now req = (500, db) := by
  simp [postFeedback, h1, h2]

lemma postFeedback_200 (compound : String → ℚ) (db : DB) (now : Nat)
    (req : FeedbackReq) (h1 : missingFields req = false)
    (h2 : roleCheckOk (jsOrEmpty req.role) = true) :
    postFeedback compound db now req =
      (200, { db with feedback := db.feedback ++ [insertedRow compound db now req],
                      nextFeedbackId := db.nextFeedbackId + 1 }) := by
  simp [postFeedback, h1, h2]

lemma deleteById_some (db : DB) (idStr : String) (i : Nat)
    (hp : parseNat idStr = some i) :
    deleteById db idStr =
      if (db.feedback.filter (fun r => r.id ≠ i)).length <
          db.feedback.length then
        (200, { db with feedback := db.feedback.filter (fun r => r.id ≠ i) })
      else
        (404, db) := by
  unfold deleteById
  rw [hp]

lemma deleteById_404 (db : DB) (idStr : String) (i : Nat)
    (hp : parseNat idStr = some i)
    (hnone : ∀ r ∈ db.feedback, r.id ≠ i) :
    deleteById db idStr = (404, db) := by
  have hself : db.feedback.filter (fun r => r.id ≠ i) = db.feedback :=
    List.filter_eq_self.mpr (fun a ha => by simpa using hnone a ha)
  rw [deleteById_some db idStr i hp, hself, if_neg (lt_irrefl _)]

lemma postFeedback_success_inv (compound : String → ℚ) (db : DB) (now : Nat)
    (req : FeedbackReq) (hsucc : (postFeedback compound db now req).1 = 200) :
    missingFields req = false ∧ roleCheckOk (jsOrEmpty req.role) = true := by
  by_cases h1 : missingFields req = true
  · rw [postFeedback_400 compound db now req h1] at hsucc
    simp at hsucc
  · have h1' : missingFields req = false := by simpa using h1
    by_cases h2 : roleCheckOk (jsOrEmpty req.role) = true
    · exact ⟨h1', h2⟩
    · have h2' : roleCheckOk (jsOrEmpty req.role) = false := by simpa using h2
      rw [postFeedback_500 compound db now req h1' h2'] at hsucc
      simp at hsucc

/-- C1: every feedback row stored by POST /api/feedback carries a
sentiment_label derived from its sentiment_score by the fixed
thresholds — `positive` exactly when score > 0.3, `negative` exactly
when score < -0.3, and `neutral` exactly when -0.3 ≤ score ≤ 0.3 (so
scores of exactly 0.3 or -0.3 yield `neutral`). -/
theorem sentiment_label_thresholds (compound : String → ℚ) (db : DB)
    (now : Nat) (req : FeedbackReq)
    (hsucc : (postFeedback compound db now req).1 = 200) :
    ∃ row : FeedbackRow,
      (postFeedback compound db now req).2.feedback = db.feedback ++ [row] ∧
      row.sentiment_score = compound (jsOrEmpty req.feedback_text) ∧
      (row.sentiment_label = "positive" ↔ 3/10 < row.sentiment_score) ∧
      (row.sentiment_label = "negative" ↔ row.sentiment_score < -(3/10)) ∧
      (row.sentiment_label = "neutral" ↔
        -(3/10) ≤ row.sentiment_score ∧ row.sentiment_score ≤ 3/10) := by
  obtain ⟨h1, h2⟩ := postFeedback_success_inv compound db now req hsucc
  refine ⟨insertedRow compound db now req, ?_, rfl, ?_, ?_, ?_⟩
  · rw [postFeedback_200 compound db now req h1 h2]
  · exact classifyLabel_pos_iff _
  · exact classifyLabel_neg_iff _
  · exact classifyLabel_neutral_iff _

/-- Witness for C1: a concrete successful insertion. -/
theorem sentiment_label_thresholds_witness :
    ∃ row : FeedbackRow,
      (postFeedback vaderCompound emptyDB 0 reqAlice).2.feedback =
        emptyDB.feedback ++ [row] ∧
      row.sentiment_score = vaderCompound (jsOrEmpty reqAlice.feedback_text) ∧
      (row.sentiment_label = "positive" ↔ 3/10 < row.sentiment_score) ∧
      (row.sentiment_label = "negative" ↔ row.sentiment_score < -(3/10)) ∧
      (row.sentiment_label = "neutral" ↔
        -(3/10) ≤ row.sentiment_score ∧ row.sentiment_score ≤ 3/10) :=
  sentiment_label_thresholds vaderCompound emptyDB 0 reqAlice (by decide)

/-- C2 counterexample: a request whose role is the non-empty invalid
string "superadmin" is answered with HTTP 500 (the CHECK-constraint
failure surfaces as a store error), not with the claimed 400. -/
theorem insert_invalid_role_counterexample :
    (postFeedback vaderCompound emptyDB 0 reqBadRole).1 = 500 ∧
    (postFeedback vaderCompound emptyDB 0 reqBadRole).1 ≠ 400 := by
  constructor
  · decide
  · decide

/-- C2 (amended): an insertion request fails with 400 when
feedback_text is empty/absent or role is empty/absent; a request whose
role is a non-empty string outside {guest, user, admin} passes the
handler validation but is rejected by the database CHECK constraint and
answered with 500; in every non-success case no row is persisted. -/
theorem insert_invalid_input (compound : String → ℚ) (db : DB) (now : Nat)
    (req : FeedbackReq) :
    (jsTruthyStr req.feedback_text = false →
      postFeedback compound db now req = (400, db)) ∧
    (jsTruthyStr req.role = false →
      postFeedback compound db now req = (400, db)) ∧
    (missingFields req = false → roleCheckOk (jsOrEmpty req.role) = false →
      postFeedback compound db now req = (500, db)) ∧
    ((postFeedback compound db now req).1 ≠ 200 →
      (postFeedback compound db now req).2 = db) := by
  refine ⟨?_, ?_, ?_, ?_⟩
  · intro h
    exact postFeedback_400 compound db now req (by simp [missingFields, h])
  · intro h
    exact postFeedback_400 compound db now req (by simp [missingFields, h])
  · intro h1 h2
    exact postFeedback_500 compound db now req h1 h2
  · intro hne
    by_cases h1 : missingFields req = true
    · rw [postFeedback_400 compound db now req h1]
    · have h1' : missingFields req = false := by simpa using h1
      by_cases h2 : roleCheckOk (jsOrEmpty req.role) = true
      · exact absurd (by rw [postFeedback_200 compound db now req h1' h2]) hne
      · rw [postFeedback_500 compound db now req h1' (by simpa using h2)]

/-- Witness for C2 (amended): the concrete invalid-role request is
answered with 500 and leaves the database unchanged. -/
theorem insert_invalid_input_witness :
    postFeedback vaderCompound emptyDB 0 reqBadRole = (500, emptyDB) :=
  (insert_invalid_input vaderCompound emptyDB 0 reqBadRole).2.2.1
    (by decide) (by decide)

/-- C9: the classifier is total — every text, the empty string
included, yields a (label, score) pair whose label is one of the three
sentiment labels — and the empty string classifies as `neutral` with
score exactly 0. -/
theorem classify_total_empty_neutral :
    (∀ t : String,
      Classify t = (classifyLabel (vaderCompound t), vaderCompound t) ∧
      ((Classify t).1 = "positive" ∨ (Classify t).1 = "neutral" ∨
        (Classify t).1 = "negative")) ∧
    Classify "" = ("neutral", 0) := by
  constructor
  · intro t
    refine ⟨rfl, ?_⟩
    have hfst : (Classify t).1 = classifyLabel (vaderCompound t) := rfl
    rw [hfst]
    unfold classifyLabel
    split
    · exact Or.inl rfl
    · split
      · exact Or.inr (Or.inr rfl)
      · exact Or.inr (Or.inl rfl)
  · have hsplit : splitWords "" = [] := by decide
    have hscore : vaderCompound "" = 0 := by
      unfold vaderCompound
      rw [hsplit]
      norm_num
    have : Classify "" = (classifyLabel (vaderCompound ""), vaderCompound "") := rfl
    rw [this, hscore]
    have hlabel : classifyLabel 0 = "neutral" := by
      unfold classifyLabel
      rw [if_neg (by norm_num), if_neg (by norm_num)]
    rw [hlabel]

/-- C10: a POST /api/feedback request in which both `username` and
`user_id` are absent is rejected with HTTP 400 and persists nothing,
even when feedback_text and role are present and valid. -/
theorem feedback_requires_user_or_username (compound : String → ℚ)
    (db : DB) (now : Nat) (req : FeedbackReq)
    (hu : req.username = none) (hi : req.user_id = none) :
    postFeedback compound db now req = (400, db) := by
  apply postFeedback_400
  simp [missingFields, hu, hi, jsTruthyStr, jsTruthyNat]

/-- Witness for C10: the concrete request with valid text and role but
neither user field is answered with 400 on the empty database. -/
theorem feedback_requires_user_or_username_witness :
    postFeedback vaderCompound emptyDB 0 reqNoUser = (400, emptyDB) :=
  feedback_requires_user_or_username vaderCompound emptyDB 0 reqNoUser
    (by decide) (by decide)

/-- C3: deleting an existing feedback id reports success (200) and the
row no longer appears in any subsequent ListAll result; a second delete
with the same id is answered 404 with the table unchanged; and a
non-numeric id is rejected with 400, leaving the table unchanged. -/
theorem deleteById_spec (db : DB) (idStr : String) (i : Nat)
    (hp : parseNat idStr = some i)
    (hmem : i ∈ db.feedback.map (fun r => r.id)) :
    (deleteById db idStr).1 = 200 ∧
    (∀ row ∈ listAll (deleteById db idStr).2, row.id ≠ i) ∧
    deleteById (deleteById db idStr).2 idStr =
      (404, (deleteById db idStr).2) ∧
    (∀ s : String, parseNat s = none → deleteById db s = (400, db)) := by
  obtain ⟨x, hx, hxid⟩ := List.mem_map.mp hmem
  have hlt : (db.feedback.filter (fun r => r.id ≠ i)).length <
      db.feedback.length := by
    apply length_filter_lt_of_mem_not _ _ x hx
    simp [hxid]
  have hdel : deleteById db idStr =
      (200, { db with feedback := db.feedback.filter (fun r => r.id ≠ i) }) := by
    rw [deleteById_some db idStr i hp, if_pos hlt]
  refine ⟨by rw [hdel], ?_, ?_, ?_⟩
  · intro row hrow
    rw [hdel] at hrow
    have hmem' : row ∈ db.feedback.filter (fun r => r.id ≠ i) := by
      simpa [listAll] using hrow
    simpa using (List.mem_filter.mp hmem').2
  · rw [hdel]
    exact deleteById_404 _ idStr i hp
      (fun r hr => by simpa using (List.mem_filter.mp hr).2)
  · intro s hs
    unfold deleteById
    rw [hs]

/-- Witness for C3: deleting the single row of a one-row table. -/
theorem deleteById_spec_witness :
    (deleteById dbOne "1").1 = 200 ∧
    (∀ row ∈ listAll (deleteById dbOne "1").2, row.id ≠ 1) ∧
    deleteById (deleteById dbOne "1").2 "1" =
      (404, (deleteById dbOne "1").2) ∧
    (∀ s : String, parseNat s = none → deleteById dbOne s = (400, dbOne)) :=
  deleteById_spec dbOne "1" 1 (by decide) (by decide)

/-- C8: a failed login is answered with the identical status and body —
400, "Invalid username or password" — whether the username is unknown
or the username exists and the password comparison fails, so the
response does not reveal which check failed. -/
theorem login_opaque_failure (db : DB) (u p : String)
    (hu : u ≠ "") (hp : p ≠ "") :
    (db.users.find? (fun x => x.username == u) = none →
      login db u p = (400, none, "Invalid username or password")) ∧
    (∀ row : UserRow, db.users.find? (fun x => x.username == u) = some row →
      bcompare p row.password = false →
      login db u p = (400, none, "Invalid username or password")) := by
  constructor
  · intro hfind
    unfold login
    rw [if_neg (by push_neg; exact ⟨hu, hp⟩), hfind]
  · intro row hfind hcmp
    unfold login
    rw [if_neg (by push_neg; exact ⟨hu, hp⟩), hfind]
    simp [hcmp]

/-- Witness for C8: on a store holding only alice, a wrong password for
alice and a login for the unknown user bob produce the same response. -/
theorem login_opaque_failure_witness :
    login regDB "alice" "bad" = (400, none, "Invalid username or password") ∧
    login regDB "bob" "bad" = (400, none, "Invalid username or password") :=
  ⟨(login_opaque_failure regDB "alice" "bad" (by decide) (by decide)).2
      ⟨1, "alice", bhash "pw123"⟩ (by decide) (by decide),
    (login_opaque_failure regDB "bob" "bad" (by decide) (by decide)).1
      (by decide)⟩

/-- C5: the sentiment summary has pairwise-distinct labels, contains a
pair for a label exactly when that label occurs among the stored rows,
its counts sum to the total number of feedback rows, and every reported
count is positive (no zero-filled labels). -/
theorem sentimentSummary_spec (db : DB) :
    ((sentimentSummary db).map Prod.fst).Nodup ∧
    (∀ l : String, (∃ c, (l, c) ∈ sentimentSummary db) ↔
      l ∈ storedLabels db) ∧
    ((sentimentSummary db).map Prod.snd).sum = db.feedback.length ∧
    (∀ q ∈ sentimentSummary db, 0 < q.2) := by
  have hfst : (sentimentSummary db).map Prod.fst = (storedLabels db).dedup := by
    unfold sentimentSummary
    rw [List.map_map]
    exact List.map_id'' (fun _ => rfl) _
  refine ⟨?_, ?_, ?_, ?_⟩
  · rw [hfst]
    exact List.nodup_dedup _
  · intro l
    constructor
    · rintro ⟨c, hc⟩
      obtain ⟨a, ha, hfa⟩ := List.mem_map.mp hc
      obtain ⟨rfl, -⟩ : a = l ∧ (storedLabels db).count a = c := by
        simpa using hfa
      exact List.mem_dedup.mp ha
    · intro hl
      exact ⟨(storedLabels db).count l,
        List.mem_map_of_mem _ (List.mem_dedup.mpr hl)⟩
  · unfold sentimentSummary
    rw [List.map_map]
    have hcomp : (Prod.snd ∘ fun l => (l, (storedLabels db).count l)) =
        fun l => (storedLabels db).count l := rfl
    rw [hcomp, List.sum_map_count_dedup_eq_length]
    unfold storedLabels
    rw [List.length_map]
  · intro q hq
    obtain ⟨a, ha, hfa⟩ := List.mem_map.mp hq
    have hmem : a ∈ storedLabels db := List.mem_dedup.mp ha
    have hsnd : q.2 = (storedLabels db).count a := by
      rw [← hfa]
    rw [hsnd]
    exact List.count_pos_iff.mpr hmem

/-- Witness for C5 at a one-row table. -/
theorem sentimentSummary_spec_witness :
    ((sentimentSummary dbOne).map Prod.fst).Nodup ∧
    (∀ l : String, (∃ c, (l, c) ∈ sentimentSummary dbOne) ↔
      l ∈ storedLabels dbOne) ∧
    ((sentimentSummary dbOne).map Prod.snd).sum = dbOne.feedback.length ∧
    (∀ q ∈ sentimentSummary dbOne, 0 < q.2) :=
  sentimentSummary_spec dbOne

/-- C6: the average-sentiment-over-time view lists dates in ascending
(non-decreasing, in fact strictly increasing by distinctness) order,
one entry exactly per distinct calendar date among the stored rows, and
each reported average times the number of that date's rows equals the
sum of that date's scores — i.e. it is their arithmetic mean, the group
being non-empty. -/
theorem avgSentiment_spec (db : DB) :
    List.Sorted (fun a b => a ≤ b) ((avgSentimentOverTime db).map Prod.fst) ∧
    ((avgSentimentOverTime db).map Prod.fst).Nodup ∧
    (∀ d : Nat, d ∈ (avgSentimentOverTime db).map Prod.fst ↔
      d ∈ db.feedback.map (fun r => dateOf r.created_at)) ∧
    (∀ q ∈ avgSentimentOverTime db,
      0 < (scoresOf db q.1).length ∧
      q.2 * ((scoresOf db q.1).length : ℚ) = (scoresOf db q.1).sum) := by
  have hfst : (avgSentimentOverTime db).map Prod.fst =
      List.insertionSort (fun a b => a ≤ b)
        ((db.feedback.map (fun r => dateOf r.created_at)).dedup) := by
    unfold avgSentimentOverTime
    rw [List.map_map]
    exact List.map_id'' (fun _ => rfl) _
  have hlen : ∀ d, d ∈ db.feedback.map (fun r => dateOf r.created_at) →
      0 < (scoresOf db d).length := by
    intro d hd
    obtain ⟨r, hr, hrd⟩ := List.mem_map.mp hd
    have hrf : r ∈ db.feedback.filter (fun x => dateOf x.created_at == d) :=
      List.mem_filter.mpr ⟨hr, by simp [hrd]⟩
    unfold scoresOf
    rw [List.length_map]
    exact List.length_pos.mpr (List.ne_nil_of_mem hrf)
  refine ⟨?_, ?_, ?_, ?_⟩
  · rw [hfst]
    exact List.sorted_insertionSort _ _
  · rw [hfst]
    exact ((List.perm_insertionSort _ _).nodup_iff).mpr (List.nodup_dedup _)
  · intro d
    rw [hfst, List.mem_insertionSort, List.mem_dedup]
  · intro q hq
    obtain ⟨d, hd, hfd⟩ := List.mem_map.mp hq
    subst hfd
    have hd' : d ∈ db.feedback.map (fun r => dateOf r.created_at) :=
      List.mem_dedup.mp ((List.mem_insertionSort _).mp hd)
    have h0 := hlen d hd'
    have hne : ((scoresOf db d).length : ℚ) ≠ 0 :=
      Nat.cast_ne_zero.mpr (Nat.pos_iff_ne_zero.mp h0)
    exact ⟨h0, div_mul_cancel₀ _ hne⟩

/-- Witness for C6 at a one-row table. -/
theorem avgSentiment_spec_witness :
    List.Sorted (fun a b => a ≤ b)
      ((avgSentimentOverTime dbOne).map Prod.fst) ∧
    ((avgSentimentOverTime dbOne).map Prod.fst).Nodup ∧
    (∀ d : Nat, d ∈ (avgSentimentOverTime dbOne).map Prod.fst ↔
      d ∈ dbOne.feedback.map (fun r => dateOf r.created_at)) ∧
    (∀ q ∈ avgSentimentOverTime dbOne,
      0 < (scoresOf dbOne q.1).length ∧
      q.2 * ((scoresOf dbOne q.1).length : ℚ) = (scoresOf dbOne q.1).sum) :=
  avgSentiment_spec dbOne

/-- C4: a successfully inserted feedback record appears in ListAll (and
in ListByUser for its user_id, when one was supplied) with every field
equal to the request's — absent optional `username` and `feedback_type`
stored as the empty string, not null — while `id` and `created_at` are
newly assigned: the id is fresh (distinct from every pre-existing id)
and created_at is the insertion time. -/
theorem insert_roundtrip (compound : String → ℚ) (db : DB) (now : Nat)
    (req : FeedbackReq)
    (hinv : ∀ r ∈ db.feedback, r.id < db.nextFeedbackId)
    (hsucc : (postFeedback compound db now req).1 = 200) :
    ∃ row : FeedbackRow,
      row ∈ listAll (postFeedback compound db now req).2 ∧
      (∀ uid : Nat, jsOrNull req.user_id = some uid →
        row ∈ listByUser (postFeedback compound db now req).2 uid) ∧
      row.user_id = jsOrNull req.user_id ∧
      row.username = jsOrEmpty req.username ∧
      row.role = jsOrEmpty req.role ∧
      row.feedback_type = jsOrEmpty req.feedback_type ∧
      row.feedback_text = jsOrEmpty req.feedback_text ∧
      (req.username = none → row.username = "") ∧
      (req.feedback_type = none → row.feedback_type = "") ∧
      row.id = db.nextFeedbackId ∧
      row.created_at = now ∧
      row.id ∉ db.feedback.map (fun r => r.id) := by
  obtain ⟨h1, h2⟩ := postFeedback_success_inv compound db now req hsucc
  have h200 := postFeedback_200 compound db now req h1 h2
  refine ⟨insertedRow compound db now req, ?_, ?_, rfl, rfl, rfl, rfl, rfl,
    ?_, ?_, rfl, rfl, ?_⟩
  · rw [h200]
    simp [listAll]
  · intro uid huid
    rw [h200]
    unfold listByUser
    rw [List.mem_insertionSort]
    refine List.mem_filter.mpr ⟨by simp, ?_⟩
    have : (insertedRow compound db now req).user_id = some uid := huid
    simp [this]
  · intro h
    simp [insertedRow, jsOrEmpty, h]
  · intro h
    simp [insertedRow, jsOrEmpty, h]
  · intro hcon
    obtain ⟨r, hr, hrid⟩ := List.mem_map.mp hcon
    have hlt := hinv r hr
    have : r.id = db.nextFeedbackId := hrid
    omega

/-- Witness for C4: a concrete insertion into the empty database. -/
theorem insert_roundtrip_witness :
    ∃ row : FeedbackRow,
      row ∈ listAll (postFeedback vaderCompound emptyDB 0 reqAlice).2 ∧
      (∀ uid : Nat, jsOrNull reqAlice.user_id = some uid →
        row ∈ listByUser (postFeedback vaderCompound emptyDB 0 reqAlice).2 uid) ∧
      row.user_id = jsOrNull reqAlice.user_id ∧
      row.username = jsOrEmpty reqAlice.username ∧
      row.role = jsOrEmpty reqAlice.role ∧
      row.feedback_type = jsOrEmpty reqAlice.feedback_type ∧
      row.feedback_text = jsOrEmpty reqAlice.feedback_text ∧
      (reqAlice.username = none → row.username = "") ∧
      (reqAlice.feedback_type = none → row.feedback_type = "") ∧
      row.id = emptyDB.nextFeedbackId ∧
      row.created_at = 0 ∧
      row.id ∉ emptyDB.feedback.map (fun r => r.id) :=
  insert_roundtrip vaderCompound emptyDB 0 reqAlice
    (by intro r hr; simp [emptyDB] at hr) (by decide)

/-- C7: when registration of (username, password) succeeds and returns
a user id, a subsequent login with the same credentials against the
resulting store succeeds and returns that same user id. -/
theorem register_login_roundtrip (db : DB) (u p : String) (uid : Nat)
    (db' : DB) (h : register db u p = (200, some uid, db')) :
    login db' u p = (200, some uid, "") := by
  unfold register at h
  by_cases h0 : u = "" ∨ p = ""
  · rw [if_pos h0] at h
    simp at h
  · rw [if_neg h0] at h
    by_cases h1 : db.users.any (fun x => x.username == u) = true
    · rw [if_pos h1] at h
      simp at h
    · have h1' : db.users.any (fun x => x.username == u) = false := by
        simpa using h1
      rw [if_neg h1] at h
      have hfnone : db.users.find? (fun x => x.username == u) = none :=
        List.find?_eq_none.mpr
          (fun x hx => by simpa using List.any_eq_false.mp h1' x hx)
      have hfind : (db.users ++ [(⟨db.nextUserId, u, bhash p⟩ : UserRow)]).find?
          (fun x => x.username == u) =
          some ⟨db.nextUserId, u, bhash p⟩ := by
        rw [List.find?_append, hfnone, Option.none_or]
        rw [List.find?_cons_of_pos _ (by simp)]
      simp only [hfind] at h
      obtain ⟨huid, hdb⟩ : db.nextUserId = uid ∧
          ({ db with users := db.users ++ [⟨db.nextUserId, u, bhash p⟩],
                     nextUserId := db.nextUserId + 1 } : DB) = db' := by
        simpa using h
      subst huid
      subst hdb
      simp [login, h0, hfind, bcompare]

/-- Witness for C7: registering alice on the empty store and logging
in with the same credentials returns the same user id 1. -/
theorem register_login_roundtrip_witness :
    login regDB "alice" "pw123" = (200, some 1, "") :=
  register_login_roundtrip emptyDB "alice" "pw123" 1 regDB (by decide)

end SmartFeedback
